import Mathlib

/-!
Verification development for the egenbefordring reconciliation engine
(src/helpers/helper_functions.py).  The Python functions are shallowly
embedded as executable Lean definitions: machine floats become exact
rationals, Python dicts become functions from keys to optional values,
database rows become structures, and the per-claim imperative loop of
process_submission becomes a structural recursion over the entry list.
-/

namespace Egenbefordring

/-- Calendar date, mirroring Python datetime.date: a (year, month, day)
triple compared lexicographically. -/
structure Date where
  year : Nat
  month : Nat
  day : Nat
deriving DecidableEq

/-- Strict lexicographic order on dates, as Python compares date objects. -/
def Date.lt (a b : Date) : Prop :=
  a.year < b.year ∨
    (a.year = b.year ∧
      (a.month < b.month ∨ (a.month = b.month ∧ a.day < b.day)))

/-- Non-strict lexicographic order on dates. -/
def Date.le (a b : Date) : Prop := Date.lt a b ∨ a = b

instance (a b : Date) : Decidable (Date.lt a b) := by
  unfold Date.lt; infer_instance

instance (a b : Date) : Decidable (Date.le a b) := by
  unfold Date.le; infer_instance

/-- Scalar value as it appears in a form-data dict or a database cell:
Python None, a string, or a number (floats modelled as exact rationals). -/
inductive Value where
  | vNone : Value
  | vStr (s : String) : Value
  | vNum (q : ℚ) : Value
deriving DecidableEq

/-- Character-list split on a separator character, implementing the
Python str.split used by the source; structural so the kernel can
evaluate it. -/
def splitChar (sep : Char) : List Char → List (List Char)
  | [] => [[]]
  | c :: rest =>
      let r := splitChar sep rest
      if c = sep then [] :: r
      else
        match r with
        | h :: t => (c :: h) :: t
        | [] => [[c]]

/-- Python str.split on a one-character separator. -/
def pySplit (sep : Char) (s : String) : List String :=
  (splitChar sep s.data).map String.mk

/-- Python sep.join on a string list. -/
def pyJoin (sep : String) : List String → String
  | [] => ""
  | [x] => x
  | x :: rest => x ++ sep ++ pyJoin sep rest

/-- Python str.lower (ASCII case fold, as the source only compares
ASCII-relevant positions). -/
def pyLower (s : String) : String := String.mk (s.data.map Char.toLower)

/-- Python str.strip: remove leading and trailing whitespace. -/
def pyStrip (s : String) : String :=
  String.mk (((s.data.dropWhile Char.isWhitespace).reverse.dropWhile
    Char.isWhitespace).reverse)

/-- Python replace of a decimal comma by a decimal dot. -/
def pyCommaToDot (s : String) : String :=
  String.mk (s.data.map (fun c => if c = ',' then '.' else c))

/-- Python replace of every space by the empty string. -/
def pyRemoveSpaces (s : String) : String :=
  String.mk (s.data.filter (fun c => c ≠ ' '))

/-- The text before the first comma: split(",")[0] and split(",", 1)[0]. -/
def beforeComma (s : String) : String :=
  String.mk (s.data.takeWhile (fun c => c ≠ ','))

/-- The digits of a character list read as a base-10 natural number. -/
def digitsVal (cs : List Char) : Nat :=
  cs.foldl (fun a c => a * 10 + (c.toNat - 48)) 0

/-- Parse an unsigned decimal numeral, optionally with a fractional part,
as Python float() accepts (the plain decimal subset: a dot may separate
integer and fractional digits, at least one digit must be present). -/
def parseUnsigned (t : List Char) : Option ℚ :=
  match splitChar '.' t with
  | [intPart] =>
      if intPart ≠ [] ∧ intPart.all Char.isDigit then
        some (digitsVal intPart : ℚ)
      else none
  | [intPart, fracPart] =>
      if (intPart ≠ [] ∨ fracPart ≠ []) ∧ intPart.all Char.isDigit ∧
          fracPart.all Char.isDigit then
        some ((digitsVal intPart : ℚ) +
          (digitsVal fracPart : ℚ) / (10 ^ fracPart.length))
      else none
  | _ => none

/-- Model of the Python builtin float() on strings, restricted to the
plain decimal grammar (optional surrounding whitespace, optional sign,
decimal digits with an optional fractional part).  Exotic inputs such as
exponents, inf and nan are outside the model. -/
def pythonParseFloat (s : String) : Option ℚ :=
  match (pyStrip s).data with
  | '-' :: rest => (parseUnsigned rest).map Neg.neg
  | '+' :: rest => parseUnsigned rest
  | t => parseUnsigned t

/-- Embedding of convert_value_to_float: None and the empty string map
to None; a string is parsed with a decimal comma treated as a decimal
point; a numeric value converts to itself (str followed by float is the
identity on Python numbers); nothing ever raises, failures are None. -/
def convert_value_to_float (v : Value) : Option ℚ :=
  match v with
  | Value.vNone => none
  | Value.vStr s => if s = "" then none else pythonParseFloat (pyCommaToDot s)
  | Value.vNum q => some q

/-- Python truthiness-based or: x or d keeps x unless it is falsy
(None or zero), in which case it yields d. -/
def pyOr (x : Option ℚ) (d : ℚ) : ℚ :=
  match x with
  | none => d
  | some q => if q = 0 then d else q

/-- Embedding of norm on a plain string: lowercase then strip. -/
def normS (s : String) : String := pyStrip (pyLower s)

/-- Embedding of norm: (v or "").lower().strip() on an optional string. -/
def norm (v : Option String) : String := normS (v.getD "")

/-- Embedding of remove_numbers: delete every digit character, then strip. -/
def remove_numbers (s : String) : String :=
  pyStrip (String.mk (s.data.filter (fun c => !c.isDigit)))

/-- Embedding of extract_road_name: empty address yields empty string,
otherwise take the part before the first comma, delete digits, strip. -/
def extract_road_name (address : String) : String :=
  if address = "" then ""
  else
    let road_part := beforeComma address
    pyStrip (String.mk (road_part.data.filter (fun c => !c.isDigit)))

/-- Embedding of parse_selected_school: an empty selection yields
(empty, none); otherwise strip, and if the text contains an opening
parenthesis and ends with a closing one, split on the last opening
parenthesis into name and road (dropping the trailing parenthesis),
each stripped; otherwise the whole text is the name. -/
def parse_selected_school (raw : String) : String × Option String :=
  if raw = "" then ("", none)
  else
    let r := pyStrip raw
    if r.data.contains '(' ∧ r.data.getLast? = some ')' then
      let parts := pySplit '(' r
      let name := pyJoin "(" parts.dropLast
      let road := (parts.getLast?).getD ""
      (pyStrip name, some (pyStrip (String.mk road.data.dropLast)))
    else (r, none)

/-- Embedding of get_takst_for_date: the reimbursement rate is 2.28 for
dates on or after 1 January 2026 and 2.23 before. -/
def get_takst_for_date (d : Date) : ℚ :=
  if Date.le ⟨2026, 1, 1⟩ d then (2.28 : ℚ) else (2.23 : ℚ)

/-- Contiguous-substring test on character lists, used to embed the
Python in operator on strings. -/
def listHasInfix (needle : List Char) (hay : List Char) : Bool :=
  match hay with
  | [] => needle.isEmpty
  | _ :: rest => needle.isPrefixOf hay || listHasInfix needle rest

/-- A date-valued database cell: either a date, a datetime (a date
carrying a time of day), or a value of some other unsupported kind.
The Python isinstance checks make these three cases exhaustive. -/
inductive DBDate where
  | dDate (d : Date) : DBDate
  | dDatetime (d : Date) (seconds : Nat) : DBDate
  | dOther (descr : String) : DBDate
deriving DecidableEq

/-- Embedding of to_date: a datetime is truncated to its date, a date is
returned unchanged, and any other kind raises TypeError (modelled as an
error result). -/
def to_date (value : DBDate) : Except String Date :=
  match value with
  | DBDate.dDatetime d _ => Except.ok d
  | DBDate.dDate d => Except.ok d
  | DBDate.dOther t => Except.error ("Unsupported date type: " ++ t)

/-- Raw bevilling row as fetched from the BefordringsData table. -/
structure BevRow where
  TidspunktForBevilling : Option String
  BevilgetKoereAfstand : Value
  ElevensAdresse : Option String
  SkoleNavnBefordring : Option String
  SkolensAdresse : Option String
  BevillingFra : DBDate
  BevillingTil : DBDate
deriving DecidableEq

/-- Normalized bevilling, the dictionary built by normalize_bevillinger. -/
structure Bevilling where
  fromDate : Date
  toDate : Date
  allowed_morgen : Bool
  allowed_efter : Bool
  allowed_distance : ℚ
  bevilget_skole : Option String
  skolens_adresse : Option String
  bevilget_addresse : Option String
deriving DecidableEq

/-- Normalize one raw row: lowercase the time-slot text and test it for
the substrings morgen and eftermiddag, coerce both range endpoints with
to_date (propagating its type failure), and parse the approved distance
leniently with absent or unparsable values becoming 0. -/
def normalize_bevilling (r : BevRow) : Except String Bevilling := do
  let tid := pyLower (r.TidspunktForBevilling.getD "")
  let f ← to_date r.BevillingFra
  let t ← to_date r.BevillingTil
  Except.ok
    { fromDate := f
      toDate := t
      allowed_morgen := listHasInfix "morgen".data tid.data
      allowed_efter := listHasInfix "eftermiddag".data tid.data
      allowed_distance := pyOr (convert_value_to_float r.BevilgetKoereAfstand) 0
      bevilget_skole := r.SkoleNavnBefordring
      skolens_adresse := r.SkolensAdresse
      bevilget_addresse := r.ElevensAdresse }

/-- Embedding of normalize_bevillinger over a whole row list; the first
unsupported date field aborts the run with the type failure. -/
def normalize_bevillinger (rows : List BevRow) : Except String (List Bevilling) :=
  match rows with
  | [] => Except.ok []
  | r :: rest => do
      let b ← normalize_bevilling r
      let bs ← normalize_bevillinger rest
      Except.ok (b :: bs)

/-- Embedding of find_bevillinger_for_date: the bevillinger whose
inclusive from-to range contains the date. -/
def find_bevillinger_for_date (bevillinger : List Bevilling) (d : Date) :
    List Bevilling :=
  bevillinger.filter (fun b => decide (Date.le b.fromDate d ∧ Date.le d b.toDate))

/-- Result quadruple of validate_leg. -/
structure LegResult where
  is_valid : Bool
  is_wrong : Bool
  distance_violation : Bool
  exPair : Option (ℚ × ℚ)
deriving DecidableEq

/-- Embedding of validate_leg: absent or non-positive distance is a
non-reported leg; a reported leg in a disallowed slot is wrong-time; a
permitted leg under an unknown cap, an already-set sticky flag, or
within the cap is valid without a new violation; otherwise the leg is
valid but sets the flag and yields the (reported, allowed) evidence. -/
def validate_leg (km : Option ℚ) (allowed : Bool) (allowed_distance : ℚ)
    (distance_violation : Bool) : LegResult :=
  match km with
  | none => ⟨false, false, distance_violation, none⟩
  | some k =>
      if k ≤ 0 then ⟨false, false, distance_violation, none⟩
      else if allowed = false then ⟨false, true, distance_violation, none⟩
      else if allowed_distance ≤ 0 ∨ distance_violation = true ∨ k ≤ allowed_distance then
        ⟨true, false, distance_violation, none⟩
      else ⟨true, false, true, some (k, allowed_distance)⟩

/-- One reported day: a date plus the raw to-school and to-home values. -/
structure Entry where
  dato : Date
  til_skole : Value
  til_hjem : Value
deriving DecidableEq

/-- Aggregate result of validate_entries. -/
structure EntryValidation where
  wrong_morgen : Bool
  wrong_efter : Bool
  distance_violation : Bool
  distance_example : Option (ℚ × ℚ)
  valid_legs : Nat
deriving DecidableEq

/-- Python tuple truthiness applied to the example slot: an assignment
guarded by if example only fires when the example is an actual pair. -/
def exUpdate (old : Option (ℚ × ℚ)) (newer : Option (ℚ × ℚ)) : Option (ℚ × ℚ) :=
  match newer with
  | some p => some p
  | none => old

/-- One iteration of the validate_entries loop body: validate the
morning leg then the afternoon leg, threading the violation flag. -/
def validate_entries_step (allowed_morgen allowed_efter : Bool)
    (allowed_distance : ℚ) (acc : EntryValidation) (entry : Entry) :
    EntryValidation :=
  let km_til := convert_value_to_float entry.til_skole
  let km_fra := convert_value_to_float entry.til_hjem
  let r1 := validate_leg km_til allowed_morgen allowed_distance acc.distance_violation
  let acc1 : EntryValidation :=
    { wrong_morgen := acc.wrong_morgen || r1.is_wrong
      wrong_efter := acc.wrong_efter
      distance_violation := r1.distance_violation
      distance_example := exUpdate acc.distance_example r1.exPair
      valid_legs := acc.valid_legs + (if r1.is_valid then 1 else 0) }
  let r2 := validate_leg km_fra allowed_efter allowed_distance acc1.distance_violation
  { wrong_morgen := acc1.wrong_morgen
    wrong_efter := acc1.wrong_efter || r2.is_wrong
    distance_violation := r2.distance_violation
    distance_example := exUpdate acc1.distance_example r2.exPair
    valid_legs := acc1.valid_legs + (if r2.is_valid then 1 else 0) }

/-- Embedding of validate_entries: fold the per-entry body over the
list, starting from all-clear flags, no example and zero valid legs. -/
def validate_entries (test_list : List Entry) (allowed_morgen allowed_efter : Bool)
    (allowed_distance : ℚ) : EntryValidation :=
  test_list.foldl (validate_entries_step allowed_morgen allowed_efter allowed_distance)
    ⟨false, false, false, none, 0⟩

/-- The per-claim mutable accumulator of process_submission. -/
structure ClaimState where
  total_valid_legs : Nat
  total_beloeb : ℚ
  found_any : Bool
  overlapping : Bool
  wrong_morgen : Bool
  wrong_efter : Bool
  distance_violation : Bool
  distance_example : Option (ℚ × ℚ)
  out_of_dates : Bool
deriving DecidableEq

/-- Accumulator at the start of a claim. -/
def initState : ClaimState :=
  ⟨0, 0, false, false, false, false, false, none, false⟩

/-- Fold one entry validation into the claim state, as the tail of the
process_submission loop body does: raise the three soft flags,
overwrite the stored example whenever this entry reports a violation,
add the valid legs, and add legs times allowed distance times rate to
the running subtotal when any leg was valid. -/
def accumulate (st : ClaimState) (val : EntryValidation) (b : Bevilling)
    (d : Date) : ClaimState :=
  let st1 := if val.wrong_morgen then { st with wrong_morgen := true } else st
  let st2 := if val.wrong_efter then { st1 with wrong_efter := true } else st1
  let st3 :=
    if val.distance_violation then
      { st2 with distance_violation := true, distance_example := val.distance_example }
    else st2
  let st4 := { st3 with total_valid_legs := st3.total_valid_legs + val.valid_legs }
  if val.valid_legs ≠ 0 then
    { st4 with total_beloeb :=
        st4.total_beloeb + (val.valid_legs : ℚ) * b.allowed_distance * get_takst_for_date d }
  else st4

/-- Claim-level inputs of process_submission, after the external JSON
decoding: the raw form-data dict plus the projections the code reads
from it (child address, selected and typed school, driving entries). -/
structure ClaimData where
  data : String → Option Value
  form_id : Value
  modtagelsesdato : Value
  adresse1 : Option String
  skoleliste : Option String
  skriv_dit_barns_skole : Option String
  entries : List Entry

/-- The claim school: the stripped selected school if non-empty,
otherwise the stripped typed school (Python or on strings). -/
def ClaimData.barnets_skole (c : ClaimData) : String :=
  let v := pyStrip (c.skoleliste.getD "")
  if v = "" then pyStrip (c.skriv_dit_barns_skole.getD "") else v

/-- Address normalization used for both the claim and the bevilling:
norm, then the part before the first comma, stripped, spaces removed. -/
def addrNorm (v : Option String) : String :=
  pyRemoveSpaces (pyStrip (beforeComma (norm v)))

/-- The claim home address after normalization. -/
def ClaimData.elevens_adresse (c : ClaimData) : String := addrNorm c.adresse1

/-- Hard-rejection and soft-issue message constants from the source. -/
def noBevillingMsg : String := "Ingen aktiv bevilling fundet"

/-- School missing on the matched bevilling. -/
def skoleMissingMsg : String := "Barnets skole forekommer ikke af bevilling"

/-- Address missing on the matched bevilling. -/
def adresseMissingMsg : String := "Barnets adresse forekommer ikke af bevilling"

/-- Reported school does not match the bevilling. -/
def skoleMismatchMsg : String := "Indberettet skole matcher ikke barnets bevilling"

/-- Reported school road does not match the bevilling. -/
def skoleAdresseMismatchMsg : String :=
  "Indberettet skoleadresse matcher ikke barnets bevilling"

/-- Reported home address does not match the bevilling. -/
def adresseMismatchMsg : String :=
  "Indberettet adresse matcher ikke barnets bevilling"

/-- Several active bevillinger cover the same date. -/
def overlappingMsg : String :=
  "Borger har flere aktive egenbefordrings-bevillinger på samme dato"

/-- No entry fell inside an active bevilling. -/
def outsideMsg : String := "Indberettet kørsel ligger udenfor aktiv bevilling"

/-- Morning reported but only afternoon granted. -/
def wrongMorgenMsg : String :=
  "Borger har indtastet morgen, men har kun bevilget eftermiddag"

/-- Afternoon reported but only morning granted. -/
def wrongEfterMsg : String :=
  "Borger har indtastet eftermiddag, men har kun bevilget morgen"

/-- Entries on dates outside every active bevilling. -/
def outOfDatesMsg : String :=
  "Borger har indtastet kørsel på datoer uden for aktive bevillinger"

/-- Separator joining the comment list. -/
def msep : String := "; "

/-- Decimal-style rendering of a rational, abstracting the Python
float formatting inside the distance comment. -/
def ratRepr (q : ℚ) : String :=
  if q.den = 1 then toString q.num else toString q.num ++ "/" ++ toString q.den

/-- The distance-violation comment built from the stored example. -/
def distMsg (reported allowed : ℚ) : String :=
  "Borger har indtastet " ++ ratRepr reported ++
    " km men har kun bevilget " ++ ratRepr allowed ++ " km"

/-- The guarded school-road comparison: the check only fires when the
claim specified a truthy road qualifier, and rejects when the
normalized roads differ. -/
def roadMismatch (road? : Option String) (bev_road : String) : Bool :=
  match road? with
  | none => false
  | some road => decide (road ≠ "") && decide (normS road ≠ normS bev_road)

/-- Outcome of the entry loop: an early hard-rejection return with its
comment, or the accumulated state when the loop ran to its end
(including the overlap break, recorded in the overlapping flag). -/
inductive LoopResult where
  | reject (msg : String) : LoopResult
  | state (st : ClaimState) : LoopResult
deriving DecidableEq

/-- The identity-check chain run on a matched bevilling, in source
order (school present, address present, school name, optional school
road, home address): the rejection comment of the first failing check,
or none when every check passes. -/
def identityCheck (c : ClaimData) (b : Bevilling) : Option String :=
  let adresse_bev := addrNorm b.bevilget_addresse
  let parsed := parse_selected_school c.barnets_skole
  let bev_school := b.bevilget_skole.getD ""
  let bev_road := extract_road_name (b.skolens_adresse.getD "")
  if bev_school = "" then some skoleMissingMsg
  else if adresse_bev = "" then some adresseMissingMsg
  else if normS parsed.1 ≠ normS bev_school then some skoleMismatchMsg
  else if roadMismatch parsed.2 bev_road then some skoleAdresseMismatchMsg
  else if remove_numbers c.elevens_adresse ≠ remove_numbers adresse_bev then
    some adresseMismatchMsg
  else none

/-- Embedding of the per-entry loop of process_submission: match the
date against the bevillinger; no match marks out-of-coverage and
continues; two or more matches set the overlap flag and break; exactly
one match runs the identity checks with their early hard-rejection
returns, then validates the entry's legs and folds the result into the
claim state. -/
def runEntries (c : ClaimData) (bevillinger : List Bevilling)
    (st : ClaimState) : List Entry → LoopResult
  | [] => LoopResult.state st
  | e :: rest =>
      match find_bevillinger_for_date bevillinger e.dato with
      | [] => runEntries c bevillinger { st with out_of_dates := true } rest
      | [b] =>
          match identityCheck c b with
          | some msg => LoopResult.reject msg
          | none =>
              runEntries c bevillinger
                (accumulate { st with found_any := true }
                  (validate_entries [e] b.allowed_morgen b.allowed_efter
                    b.allowed_distance) b e.dato) rest
      | _ :: _ :: _ => LoopResult.state { st with overlapping := true }

/-- The ordered soft-issue comment list built after the loop. -/
def claimComments (st : ClaimState) : List String :=
  (if st.wrong_morgen then [wrongMorgenMsg] else []) ++
  (if st.wrong_efter then [wrongEfterMsg] else []) ++
  (match st.distance_violation, st.distance_example with
   | true, some p => [distMsg p.1 p.2]
   | _, _ => []) ++
  (if st.out_of_dates then [outOfDatesMsg] else [])

/-- Round to two decimals, applied once at the point of final output. -/
def round2 (q : ℚ) : ℚ := (round (q * 100) : ℤ) / 100

/-- The three verdict-bearing arguments every return statement of
process_submission passes to build_final_row. -/
structure Verdict where
  submission_valid : Bool
  aendret_beloeb : Value
  kommentar : String
deriving DecidableEq

/-- Embedding of the verdict logic of process_submission from the entry
loop onward: early identity rejections carry their comment; then the
overlap rejection; then the outside-coverage rejection when no entry
found a bevilling; otherwise the claim is approved exactly when some
leg was valid, and the adjusted amount is the rounded subtotal exactly
when the claim is approved and some soft comment exists. -/
def reconcile (c : ClaimData) (bevillinger : List Bevilling) : Verdict :=
  match runEntries c bevillinger initState c.entries with
  | LoopResult.reject msg => ⟨false, Value.vStr "", msg⟩
  | LoopResult.state st =>
      if st.overlapping then
        ⟨false, Value.vStr "", pyJoin msep [overlappingMsg]⟩
      else if st.found_any = false then
        ⟨false, Value.vStr "", pyJoin msep [outsideMsg]⟩
      else
        ⟨decide (0 < st.total_valid_legs),
         (if 0 < st.total_valid_legs ∧ claimComments st ≠ [] then
            Value.vNum (round2 st.total_beloeb)
          else Value.vStr ""),
         pyJoin msep (claimComments st)⟩

/-- A Python dict keyed by strings, read by field name. -/
def Dict : Type := String → Option Value

/-- Set a key in a dict. -/
def dset (m : Dict) (k : String) (v : Value) : Dict :=
  fun q => if q = k then some v else m q

/-- Python setdefault: set the key only when it is absent. -/
def dsetdefault (m : Dict) (k : String) (v : Value) : Dict :=
  fun q => if q = k then (match m k with | some w => some w | none => some v) else m q

/-- Python dict.get with default None. -/
def pyGet (m : Dict) (k : String) : Value := (m k).getD Value.vNone

/-- Embedding of build_final_row: copy the form-data dict, overwrite
the eight verdict fields (timestamp, uuid, adjusted amount, approval
marker, three empty downstream placeholders, comment), and ensure the
pass-through list fields test and attachments exist. -/
def build_final_row (data : Dict) (form_id : Value) (modtagelsesdato : Value)
    (submission_valid : Bool) (aendret_beloeb : Value) (kommentar : String) :
    Dict :=
  let row := data
  let row := dset row "modtagelsesdato" modtagelsesdato
  let row := dset row "uuid" form_id
  let row := dset row "aendret_beloeb_i_alt" aendret_beloeb
  let row := dset row "godkendt" (Value.vStr (if submission_valid then "X" else ""))
  let row := dset row "godkendt_af" (Value.vStr "")
  let row := dset row "behandlet_ok" (Value.vStr "")
  let row := dset row "behandlet_fejl" (Value.vStr "")
  let row := dset row "evt_kommentar" (Value.vStr kommentar)
  let row := dsetdefault row "test" (pyGet data "test")
  let row := dsetdefault row "attachments" (pyGet data "attachments")
  row

/-- The eight fields build_final_row appends or overwrites. -/
def verdictKeys : List String :=
  ["modtagelsesdato", "uuid", "aendret_beloeb_i_alt", "godkendt",
   "godkendt_af", "behandlet_ok", "behandlet_fejl", "evt_kommentar"]

/-- Embedding of process_submission as a whole: with no bevilling rows
the claim is rejected outright; otherwise normalization runs (its date
type failure propagating) and the reconciled verdict is flattened into
the final row. -/
def process_submission (c : ClaimData) (bd_rows : List BevRow) :
    Except String Dict :=
  if bd_rows.isEmpty then
    Except.ok (build_final_row c.data c.form_id c.modtagelsesdato false
      (Value.vStr "") noBevillingMsg)
  else do
    let bevillinger ← normalize_bevillinger bd_rows
    let v := reconcile c bevillinger
    Except.ok (build_final_row c.data c.form_id c.modtagelsesdato
      v.submission_valid v.aendret_beloeb v.kommentar)

/-- The fixed output column order of the exported sheet, copied from
export_egenbefordring_from_hub. -/
def desired_order : List String :=
  ["adresse1",
   "anden_beloebsmodtager_",
   "antal_dage",
   "antal_km_i_alt",
   "barnets_navn",
   "beloeb_i_alt",
   "cpr_barnet",
   "cpr_nr",
   "cpr_nr_paaanden",
   "jeg_erklaerer_paa_tro_og_love_at_de_oplysninger_jeg_har_givet_er",
   "jeg_er_indforstaaet_med_at_aarhus_kommune_behandler_angivne_oply",
   "kilometer_i_alt_fra_skole",
   "kilometer_i_alt_til_skole",
   "kunne_du_ikke_finde_skole_eller_dagtilbud_paa_listen_",
   "navn_paa_anden_beloebsmodtager",
   "navn_paa_beloebsmodtager",
   "skoleliste",
   "skriv_dit_barns_skole_eller_dagtilbud",
   "takst",
   "computed_twig_tjek_for_ugenummer",
   "modtagelsesdato",
   "aendret_beloeb_i_alt",
   "godkendt",
   "godkendt_af",
   "behandlet_ok",
   "behandlet_fejl",
   "evt_kommentar",
   "test",
   "attachments",
   "uuid"]

/-- Value of one output cell: a null (Python None) cell and a column
absent from the row are both emitted as the empty string, as the
DataFrame where-notnull fill and the missing-column loop do. -/
def outValue (row : Dict) (c : String) : Value :=
  match row c with
  | some Value.vNone => Value.vStr ""
  | some v => v
  | none => Value.vStr ""

/-- One exported record: the cells of the row in the fixed order. -/
def exportRow (row : Dict) : List (String × Value) :=
  desired_order.map (fun c => (c, outValue row c))

/-- A grant row whose required date-range fields include a value that is
neither a date nor a datetime. -/
def hasUnsupportedDate (r : BevRow) : Prop :=
  (∃ t, r.BevillingFra = DBDate.dOther t) ∨ (∃ t, r.BevillingTil = DBDate.dOther t)

/-! Specification-side payout definitions, written from the spec's
words (payout contribution per valid leg is approved distance times
the date's rate, summed over all valid legs) to be compared with the
subtotal the code accumulates. -/

/-- A leg counts as valid exactly when it is reported positive and its
time slot is allowed (validity does not depend on the sticky flag). -/
def legValid (km : Option ℚ) (allowed : Bool) : Bool :=
  match km with
  | none => false
  | some k => decide (0 < k) && allowed

/-- Spec-side payout of one entry against its matched bevilling: the
approved distance times the entry date's rate, once per valid leg. -/
def legsSubtotal (b : Bevilling) (e : Entry) : ℚ :=
  (if legValid (convert_value_to_float e.til_skole) b.allowed_morgen then
    b.allowed_distance * get_takst_for_date e.dato else 0) +
  (if legValid (convert_value_to_float e.til_hjem) b.allowed_efter then
    b.allowed_distance * get_takst_for_date e.dato else 0)

/-- Spec-side payout of one entry: zero unless the date matches exactly
one bevilling. -/
def entrySubtotal (bevillinger : List Bevilling) (e : Entry) : ℚ :=
  match find_bevillinger_for_date bevillinger e.dato with
  | [b] => legsSubtotal b e
  | _ => 0

/-- Spec-side payout of a whole claim: the sum over its entries. -/
def claimSubtotal (bevillinger : List Bevilling) (entries : List Entry) : ℚ :=
  (entries.map (entrySubtotal bevillinger)).sum

/-! Concrete data used by counterexamples and witnesses. -/

/-- A bevilling granting morning driving up to 5 km through 2025, with
matching school and address texts. -/
def bevC2 : Bevilling :=
  { fromDate := ⟨2025, 1, 1⟩, toDate := ⟨2025, 12, 31⟩
    allowed_morgen := true, allowed_efter := false, allowed_distance := 5
    bevilget_skole := some "Skole", skolens_adresse := some "Skolevej 2, 8000 Aarhus"
    bevilget_addresse := some "Vej 1, 8000 Aarhus" }

/-- First reported day: 10 km to school, nothing home. -/
def e1C2 : Entry := ⟨⟨2025, 3, 3⟩, Value.vNum 10, Value.vNone⟩

/-- Second reported day: 12 km to school, nothing home. -/
def e2C2 : Entry := ⟨⟨2025, 3, 4⟩, Value.vNum 12, Value.vNone⟩

/-- A two-day claim in which both days exceed the 5 km cap. -/
def cC2 : ClaimData :=
  { data := fun _ => none, form_id := Value.vStr "id", modtagelsesdato := Value.vStr "t"
    adresse1 := some "Vej 1, 8000 Aarhus", skoleliste := some "Skole"
    skriv_dit_barns_skole := none, entries := [e1C2, e2C2] }

/-- A bevilling for early January 2025 whose school name differs from
the claim school. -/
def bevC3a : Bevilling :=
  { fromDate := ⟨2025, 1, 1⟩, toDate := ⟨2025, 1, 10⟩
    allowed_morgen := true, allowed_efter := true, allowed_distance := 5
    bevilget_skole := some "ASkole", skolens_adresse := some "Skolevej 2, 8000 Aarhus"
    bevilget_addresse := some "Vej 1, 8000 Aarhus" }

/-- A second bevilling overlapping the first from 5 January. -/
def bevC3b : Bevilling :=
  { fromDate := ⟨2025, 1, 5⟩, toDate := ⟨2025, 2, 5⟩
    allowed_morgen := true, allowed_efter := true, allowed_distance := 5
    bevilget_skole := some "ASkole", skolens_adresse := some "Skolevej 2, 8000 Aarhus"
    bevilget_addresse := some "Vej 1, 8000 Aarhus" }

/-- A claim whose first entry matches only the first bevilling and
fails the school check, and whose second entry falls in the overlap. -/
def cC3 : ClaimData :=
  { data := fun _ => none, form_id := Value.vStr "id", modtagelsesdato := Value.vStr "t"
    adresse1 := some "Vej 1, 8000 Aarhus", skoleliste := some "BSkole"
    skriv_dit_barns_skole := none
    entries := [⟨⟨2025, 1, 2⟩, Value.vNum 3, Value.vNone⟩,
                ⟨⟨2025, 1, 7⟩, Value.vNum 3, Value.vNone⟩] }

/-- A matching claim reporting only an afternoon leg against a
morning-only bevilling: one matched entry, zero valid legs. -/
def cC4 : ClaimData :=
  { data := fun _ => none, form_id := Value.vStr "id", modtagelsesdato := Value.vStr "t"
    adresse1 := some "Vej 1, 8000 Aarhus", skoleliste := some "Skole"
    skriv_dit_barns_skole := none
    entries := [⟨⟨2025, 3, 3⟩, Value.vNone, Value.vNum 3⟩] }

/-- A claim with one in-cap morning leg and one disallowed afternoon
leg: approved with a wrong-afternoon soft issue. -/
def cC5 : ClaimData :=
  { data := fun _ => none, form_id := Value.vStr "id", modtagelsesdato := Value.vStr "t"
    adresse1 := some "Vej 1, 8000 Aarhus", skoleliste := some "Skole"
    skriv_dit_barns_skole := none
    entries := [⟨⟨2025, 3, 3⟩, Value.vNum 4, Value.vNum 3⟩] }

/-- Overlapping pair of bevillinger used by the C3 witness. -/
def cC3w : ClaimData :=
  { data := fun _ => none, form_id := Value.vStr "id", modtagelsesdato := Value.vStr "t"
    adresse1 := some "Vej 1, 8000 Aarhus", skoleliste := some "Skole"
    skriv_dit_barns_skole := none
    entries := [⟨⟨2025, 1, 7⟩, Value.vNum 3, Value.vNone⟩,
                ⟨⟨2025, 1, 8⟩, Value.vNum 3, Value.vNone⟩] }

/-- A claim whose only entry falls outside every bevilling range. -/
def cC4w : ClaimData :=
  { data := fun _ => none, form_id := Value.vStr "id", modtagelsesdato := Value.vStr "t"
    adresse1 := some "Vej 1, 8000 Aarhus", skoleliste := some "Skole"
    skriv_dit_barns_skole := none
    entries := [⟨⟨2030, 1, 1⟩, Value.vNum 3, Value.vNone⟩] }

/-! Helper lemmas about the date order. -/

lemma date_lt_iff (a b : Date) :
    Date.lt a b ↔
      (a.year < b.year ∨
        (a.year = b.year ∧
          (a.month < b.month ∨ (a.month = b.month ∧ a.day < b.day)))) := by
  rfl

lemma date_le_iff (a b : Date) :
    Date.le a b ↔
      (a.year < b.year ∨
        (a.year = b.year ∧
          (a.month < b.month ∨ (a.month = b.month ∧ a.day ≤ b.day)))) := by
  obtain ⟨p, q, r⟩ := a
  obtain ⟨u, v, w⟩ := b
  simp only [Date.le, Date.lt, Date.mk.injEq]
  omega

/-- C6: the rate function is a two-tier step function of the date:
rates are monotone along the date order, with the lower rate 2.23
returned strictly before the cutover date 1 January 2026 and the
higher rate 2.28 on or after it. -/
theorem takst_step_monotone :
    (∀ d e : Date, Date.lt d e →
      get_takst_for_date d ≤ get_takst_for_date e) ∧
    (∀ d : Date, Date.lt d ⟨2026, 1, 1⟩ → get_takst_for_date d = 2.23) ∧
    (∀ d : Date, Date.le ⟨2026, 1, 1⟩ d → get_takst_for_date d = 2.28) := by
  refine ⟨?_, ?_, ?_⟩
  · intro d e h
    unfold get_takst_for_date
    split_ifs with h1 h2
    · exact le_refl _
    · exfalso
      rw [date_le_iff] at h1 h2
      rw [date_lt_iff] at h
      omega
    · norm_num
    · exact le_refl _
  · intro d h
    unfold get_takst_for_date
    rw [if_neg]
    rw [date_le_iff]
    rw [date_lt_iff] at h
    omega
  · intro d h
    unfold get_takst_for_date
    rw [if_pos h]

/-- Witness for C6 at the two dates surrounding the cutover. -/
theorem takst_step_monotone_witness :
    get_takst_for_date ⟨2025, 12, 31⟩ ≤ get_takst_for_date ⟨2026, 1, 1⟩ ∧
    get_takst_for_date ⟨2025, 12, 31⟩ = 2.23 ∧
    get_takst_for_date ⟨2026, 1, 1⟩ = 2.28 :=
  ⟨takst_step_monotone.1 ⟨2025, 12, 31⟩ ⟨2026, 1, 1⟩ (by decide),
   takst_step_monotone.2.1 ⟨2025, 12, 31⟩ (by decide),
   takst_step_monotone.2.2 ⟨2026, 1, 1⟩ (by decide)⟩

/-- C1: validate_leg follows the four-case order of the spec: absent or
non-positive distance yields (not valid, not wrong-time, flag
unchanged, no example); else a disallowed slot yields (not valid,
wrong-time, flag unchanged, no example); else a non-positive approved
distance, an already-set flag, or a reported distance within the cap
yields (valid, not wrong-time, flag unchanged, no example); otherwise
the leg is valid, the flag is set, and the example is the
(reported, allowed) pair. -/
theorem validate_leg_four_cases (km : Option ℚ) (allowed : Bool)
    (ad : ℚ) (dv : Bool) :
    ((km = none ∨ ∃ k, km = some k ∧ k ≤ 0) →
      validate_leg km allowed ad dv = ⟨false, false, dv, none⟩) ∧
    (∀ k, km = some k → 0 < k → allowed = false →
      validate_leg km allowed ad dv = ⟨false, true, dv, none⟩) ∧
    (∀ k, km = some k → 0 < k → allowed = true →
      (ad ≤ 0 ∨ dv = true ∨ k ≤ ad) →
      validate_leg km allowed ad dv = ⟨true, false, dv, none⟩) ∧
    (∀ k, km = some k → 0 < k → allowed = true → 0 < ad → dv = false → ad < k →
      validate_leg km allowed ad dv = ⟨true, false, true, some (k, ad)⟩) := by
  refine ⟨?_, ?_, ?_, ?_⟩
  · rintro (rfl | ⟨k, rfl, hk⟩)
    · rfl
    · simp [validate_leg, hk]
  · rintro k rfl hk hal
    simp [validate_leg, not_le.2 hk, hal]
  · rintro k rfl hk hal hcase
    simp [validate_leg, not_le.2 hk, hal, hcase]
  · rintro k rfl hk hal had hdv hex
    simp [validate_leg, not_le.2 hk, hal, hdv, not_le.2 had, not_le.2 hex]

/-- Witness for C1: one concrete instance of each of the four cases. -/
theorem validate_leg_four_cases_witness :
    validate_leg (some 0) true 5 false = ⟨false, false, false, none⟩ ∧
    validate_leg (some 3) false 5 true = ⟨false, true, true, none⟩ ∧
    validate_leg (some 3) true 5 false = ⟨true, false, false, none⟩ ∧
    validate_leg (some 7) true 5 false = ⟨true, false, true, some (7, 5)⟩ :=
  ⟨(validate_leg_four_cases (some 0) true 5 false).1
      (Or.inr ⟨0, rfl, le_refl 0⟩),
   (validate_leg_four_cases (some 3) false 5 true).2.1 3 rfl (by norm_num) rfl,
   (validate_leg_four_cases (some 3) true 5 false).2.2.1 3 rfl (by norm_num) rfl
      (Or.inr (Or.inr (by norm_num))),
   (validate_leg_four_cases (some 7) true 5 false).2.2.2 7 rfl (by norm_num) rfl
      (by norm_num) rfl (by norm_num)⟩

/-- C7: reading the Row Builder's output by field name recovers every
original claim field unchanged except the eight appended or overwritten
verdict fields, no original field is dropped, and every verdict field
is present even when its value is empty. -/
theorem build_final_row_roundtrip (data : Dict) (fid md : Value) (sv : Bool)
    (ab : Value) (km : String) :
    (∀ k, k ∉ verdictKeys → ∀ v, data k = some v →
      build_final_row data fid md sv ab km k = some v) ∧
    (∀ k, k ∈ verdictKeys → ∃ v, build_final_row data fid md sv ab km k = some v) := by
  constructor
  · intro k hk v hv
    simp only [verdictKeys, List.mem_cons, List.not_mem_nil, or_false, not_or] at hk
    obtain ⟨h1, h2, h3, h4, h5, h6, h7, h8⟩ := hk
    by_cases ht : k = "test"
    · subst ht
      simp [build_final_row, dset, dsetdefault, hv]
    · by_cases ha : k = "attachments"
      · subst ha
        simp [build_final_row, dset, dsetdefault, hv]
      · simp [build_final_row, dset, dsetdefault, h1, h2, h3, h4, h5, h6, h7, h8,
          ht, ha, hv]
  · intro k hk
    fin_cases hk
    · exact ⟨md, by simp [build_final_row, dset, dsetdefault]⟩
    · exact ⟨fid, by simp [build_final_row, dset, dsetdefault]⟩
    · exact ⟨ab, by simp [build_final_row, dset, dsetdefault]⟩
    · exact ⟨Value.vStr (if sv then "X" else ""), by simp [build_final_row, dset, dsetdefault]⟩
    · exact ⟨Value.vStr "", by simp [build_final_row, dset, dsetdefault]⟩
    · exact ⟨Value.vStr "", by simp [build_final_row, dset, dsetdefault]⟩
    · exact ⟨Value.vStr "", by simp [build_final_row, dset, dsetdefault]⟩
    · exact ⟨Value.vStr km, by simp [build_final_row, dset, dsetdefault]⟩

/-- Witness for C7 on a one-field claim dict. -/
theorem build_final_row_roundtrip_witness :
    build_final_row (fun k => if k = "cpr_barnet" then some (Value.vStr "x") else none)
      (Value.vStr "id") (Value.vStr "t") true (Value.vStr "") "" "cpr_barnet" =
      some (Value.vStr "x") ∧
    (∃ v, build_final_row
      (fun k => if k = "cpr_barnet" then some (Value.vStr "x") else none)
      (Value.vStr "id") (Value.vStr "t") true (Value.vStr "") "" "godkendt" = some v) :=
  ⟨(build_final_row_roundtrip
      (fun k => if k = "cpr_barnet" then some (Value.vStr "x") else none)
      (Value.vStr "id") (Value.vStr "t") true (Value.vStr "") "").1
      "cpr_barnet" (by decide) (Value.vStr "x") (by simp),
   (build_final_row_roundtrip
      (fun k => if k = "cpr_barnet" then some (Value.vStr "x") else none)
      (Value.vStr "id") (Value.vStr "t") true (Value.vStr "") "").2
      "godkendt" (by decide)⟩

/-- C8 counterexample: the fixed column list of the export has 30 named
fields, not 29 as claimed. -/
theorem column_count_counterexample :
    desired_order.length ≠ 29 ∧ desired_order.length = 30 := by decide

/-- C8 amended: the exported output has a fixed column order of 30
named fields: the original domain fields first, then the received
timestamp, adjusted amount, approval marker, the empty approved-by,
processed-ok and processed-error placeholders, the comment, the
pass-through list fields, and the claim identifier last; every column
keeps that order in the output record, and a field absent from a claim
is emitted as an empty value. -/
theorem fixed_column_order :
    desired_order.length = 30 ∧
    desired_order.getLast? = some "uuid" ∧
    desired_order[20]? = some "modtagelsesdato" ∧
    desired_order[21]? = some "aendret_beloeb_i_alt" ∧
    desired_order[22]? = some "godkendt" ∧
    desired_order[23]? = some "godkendt_af" ∧
    desired_order[24]? = some "behandlet_ok" ∧
    desired_order[25]? = some "behandlet_fejl" ∧
    desired_order[26]? = some "evt_kommentar" ∧
    desired_order[27]? = some "test" ∧
    desired_order[28]? = some "attachments" ∧
    (∀ row : Dict, (exportRow row).map Prod.fst = desired_order) ∧
    (∀ row : Dict, ∀ cn, cn ∈ desired_order → row cn = none →
      (cn, Value.vStr "") ∈ exportRow row) := by
  refine ⟨by decide, by decide, by decide, by decide, by decide, by decide,
    by decide, by decide, by decide, by decide, by decide, ?_, ?_⟩
  · intro row
    simp only [exportRow, List.map_map]
    exact List.map_id _
  · intro row cn hmem hnone
    refine List.mem_map.2 ⟨cn, hmem, ?_⟩
    simp [outValue, hnone]

/-- Witness for C8 on the empty row. -/
theorem fixed_column_order_witness :
    ((exportRow (fun _ => none)).map Prod.fst = desired_order) ∧
    ("takst", Value.vStr "") ∈ exportRow (fun _ => none) :=
  ⟨fixed_column_order.2.2.2.2.2.2.2.2.2.2.2.1 (fun _ => none),
   fixed_column_order.2.2.2.2.2.2.2.2.2.2.2.2 (fun _ => none) "takst"
     (by decide) rfl⟩

lemma normalize_bevilling_error_iff (r : BevRow) :
    (∃ e, normalize_bevilling r = Except.error e) ↔ hasUnsupportedDate r := by
  obtain ⟨a1, a2, a3, a4, a5, f, t⟩ := r
  cases f <;> cases t <;>
    simp [normalize_bevilling, to_date, hasUnsupportedDate, Bind.bind, Except.bind]

lemma normalize_bevilling_ok_of_good (r : BevRow) (h : ¬ hasUnsupportedDate r) :
    ∃ b, normalize_bevilling r = Except.ok b := by
  obtain ⟨a1, a2, a3, a4, a5, f, t⟩ := r
  cases f <;> cases t <;>
    simp [normalize_bevilling, to_date, hasUnsupportedDate, Bind.bind, Except.bind] at h ⊢

lemma normalize_ok_no_bad (rows : List BevRow) (bevs : List Bevilling)
    (h : normalize_bevillinger rows = Except.ok bevs) :
    ∀ r ∈ rows, ¬ hasUnsupportedDate r := by
  induction rows generalizing bevs with
  | nil => intro r hr; exact absurd hr (List.not_mem_nil r)
  | cons r0 rest ih =>
      intro r hr hbad
      cases hr0 : normalize_bevilling r0 with
      | error e =>
          rw [normalize_bevillinger] at h
          simp [hr0, Bind.bind, Except.bind] at h
      | ok b0 =>
          rw [normalize_bevillinger] at h
          simp only [hr0, Bind.bind, Except.bind] at h
          cases hrest : normalize_bevillinger rest with
          | error e => simp [hrest] at h
          | ok bs =>
              rcases List.mem_cons.1 hr with rfl | hr2
              · exact absurd ((normalize_bevilling_error_iff r).2 hbad)
                  (by rw [hr0]; rintro ⟨e, he⟩; cases he)
              · exact ih bs hrest r hr2 hbad

lemma normalize_no_bad_ok (rows : List BevRow)
    (h : ∀ r ∈ rows, ¬ hasUnsupportedDate r) :
    ∃ bevs, normalize_bevillinger rows = Except.ok bevs := by
  induction rows with
  | nil => exact ⟨[], rfl⟩
  | cons r0 rest ih =>
      obtain ⟨b0, hb0⟩ := normalize_bevilling_ok_of_good r0
        (h r0 (List.mem_cons_self r0 rest))
      obtain ⟨bs, hbs⟩ := ih (fun r hr => h r (List.mem_cons_of_mem r0 hr))
      refine ⟨b0 :: bs, ?_⟩
      rw [normalize_bevillinger]
      simp [hb0, hbs, Bind.bind, Except.bind]

lemma normalize_bad_error (rows : List BevRow)
    (h : ∃ r ∈ rows, hasUnsupportedDate r) :
    ∃ e, normalize_bevillinger rows = Except.error e := by
  induction rows with
  | nil => obtain ⟨r, hr, _⟩ := h; exact absurd hr (List.not_mem_nil r)
  | cons r0 rest ih =>
      obtain ⟨r, hr, hbad⟩ := h
      cases hr0 : normalize_bevilling r0 with
      | error e =>
          refine ⟨e, ?_⟩
          rw [normalize_bevillinger]
          simp [hr0, Bind.bind, Except.bind]
      | ok b0 =>
          rcases List.mem_cons.1 hr with rfl | hr2
          · obtain ⟨e, he⟩ := (normalize_bevilling_error_iff r).2 hbad
            rw [hr0] at he; cases he
          · obtain ⟨e, he⟩ := ih ⟨r, hr2, hbad⟩
            refine ⟨e, ?_⟩
            rw [normalize_bevillinger]
            simp [hr0, he, Bind.bind, Except.bind]

/-- C9: normalization fails with a type error exactly when some grant
row carries a date-range field of an unsupported kind, such a grant
never reaches a successfully normalized list (so it is never silently
matched), and rows whose date fields are supported always normalize,
whatever their distance and text fields hold. -/
theorem normalize_date_failure (rows : List BevRow) :
    ((∃ e, normalize_bevillinger rows = Except.error e) ↔
      ∃ r ∈ rows, hasUnsupportedDate r) ∧
    (∀ bevs, normalize_bevillinger rows = Except.ok bevs →
      ∀ r ∈ rows, ¬ hasUnsupportedDate r) ∧
    ((∀ r ∈ rows, ¬ hasUnsupportedDate r) →
      ∃ bevs, normalize_bevillinger rows = Except.ok bevs) := by
  refine ⟨⟨?_, normalize_bad_error rows⟩,
    fun bevs h => normalize_ok_no_bad rows bevs h,
    normalize_no_bad_ok rows⟩
  intro ⟨e, he⟩
  by_contra hno
  push_neg at hno
  obtain ⟨bevs, hb⟩ := normalize_no_bad_ok rows hno
  rw [hb] at he
  cases he

/-- Witness for C9 on a one-row list with an unsupported from-field. -/
theorem normalize_date_failure_witness :
    ∃ e, normalize_bevillinger
      [⟨none, Value.vNone, none, none, none, DBDate.dOther "str", DBDate.dDate ⟨2025, 1, 1⟩⟩] =
      Except.error e :=
  (normalize_date_failure
      [⟨none, Value.vNone, none, none, none, DBDate.dOther "str", DBDate.dDate ⟨2025, 1, 1⟩⟩]).1.2
    ⟨⟨none, Value.vNone, none, none, none, DBDate.dOther "str", DBDate.dDate ⟨2025, 1, 1⟩⟩,
      List.mem_singleton.2 rfl, Or.inl ⟨"str", rfl⟩⟩

/-- C10: convert_value_to_float is total: None and the empty string map
to None, a string whose comma-normalized form parses as a decimal
number maps to that number, any other string maps to None, a numeric
value maps to itself; consequently a normalized grant's allowed
distance is always the numeric pyOr of the parse with 0, and absent or
unparsable approved distances become 0. -/
theorem convert_value_total :
    (convert_value_to_float Value.vNone = none) ∧
    (convert_value_to_float (Value.vStr "") = none) ∧
    (∀ s q, s ≠ "" → pythonParseFloat (pyCommaToDot s) = some q →
      convert_value_to_float (Value.vStr s) = some q) ∧
    (∀ s, s ≠ "" → pythonParseFloat (pyCommaToDot s) = none →
      convert_value_to_float (Value.vStr s) = none) ∧
    (∀ q, convert_value_to_float (Value.vNum q) = some q) ∧
    (∀ r b, normalize_bevilling r = Except.ok b →
      b.allowed_distance = pyOr (convert_value_to_float r.BevilgetKoereAfstand) 0) ∧
    (∀ r b, normalize_bevilling r = Except.ok b →
      convert_value_to_float r.BevilgetKoereAfstand = none →
      b.allowed_distance = 0) := by
  have hnorm : ∀ r b, normalize_bevilling r = Except.ok b →
      b.allowed_distance = pyOr (convert_value_to_float r.BevilgetKoereAfstand) 0 := by
    intro r b h
    obtain ⟨a1, a2, a3, a4, a5, f, t⟩ := r
    cases f <;> cases t <;>
      simp [normalize_bevilling, to_date, Bind.bind, Except.bind] at h <;>
      rw [← h]
  refine ⟨rfl, rfl, ?_, ?_, fun q => rfl, hnorm, ?_⟩
  · intro s q hs hp
    simp [convert_value_to_float, hs, hp]
  · intro s hs hp
    simp [convert_value_to_float, hs, hp]
  · intro r b h hnone
    rw [hnorm r b h, hnone]
    rfl

unseal Rat.mul Rat.add Rat.sub Rat.inv Rat.ofScientific in
/-- Witness for C10: the comma string parses, a word does not, and a
normalized row with an unparsable distance gets distance 0. -/
theorem convert_value_total_witness :
    convert_value_to_float (Value.vStr "2,5") = some (5 / 2) ∧
    convert_value_to_float (Value.vStr "abc") = none ∧
    (Bevilling.mk ⟨2025, 1, 1⟩ ⟨2025, 2, 1⟩ false false 0 none none
      none).allowed_distance = 0 :=
  ⟨convert_value_total.2.2.1 "2,5" (5 / 2) (by decide) (by decide),
   convert_value_total.2.2.2.1 "abc" (by decide) (by decide),
   convert_value_total.2.2.2.2.2.2
     ⟨none, Value.vStr "abc", none, none, none,
       DBDate.dDate ⟨2025, 1, 1⟩, DBDate.dDate ⟨2025, 2, 1⟩⟩
     (Bevilling.mk ⟨2025, 1, 1⟩ ⟨2025, 2, 1⟩ false false 0 none none none)
     rfl rfl⟩

lemma accumulate_dv_sticky (st : ClaimState) (val : EntryValidation)
    (b : Bevilling) (d : Date) (h : st.distance_violation = true) :
    (accumulate st val b d).distance_violation = true := by
  simp only [accumulate]
  split_ifs <;> simp_all

lemma accumulate_example_overwrite (st : ClaimState) (val : EntryValidation)
    (b : Bevilling) (d : Date) (h : val.distance_violation = true) :
    (accumulate st val b d).distance_example = val.distance_example := by
  simp only [accumulate]
  split_ifs <;> simp_all

lemma runEntries_dv_sticky (c : ClaimData) (bevillinger : List Bevilling) :
    ∀ (es : List Entry) (st st' : ClaimState),
      st.distance_violation = true →
      runEntries c bevillinger st es = LoopResult.state st' →
      st'.distance_violation = true := by
  intro es
  induction es with
  | nil =>
      intro st st' hdv h
      rw [runEntries] at h
      cases h
      exact hdv
  | cons e rest ih =>
      intro st st' hdv h
      rw [runEntries] at h
      split at h
      · refine ih _ st' ?_ h
        exact hdv
      · split at h
        · cases h
        · refine ih _ st' ?_ h
          exact accumulate_dv_sticky _ _ _ _ hdv
      · cases h
        exact hdv

lemma validate_leg_dv_true (km : Option ℚ) (allowed : Bool) (ad : ℚ) :
    (validate_leg km allowed ad true).exPair = none ∧
    (validate_leg km allowed ad true).distance_violation = true := by
  cases km with
  | none => simp [validate_leg]
  | some k =>
      simp only [validate_leg]
      split_ifs <;> simp_all

lemma validate_entries_single_violation (e : Entry) (am ae : Bool) (ad k : ℚ)
    (h1 : convert_value_to_float e.til_skole = some k) (h2 : 0 < k)
    (h3 : am = true) (h4 : 0 < ad) (h5 : ad < k) :
    (validate_entries [e] am ae ad).distance_violation = true ∧
    (validate_entries [e] am ae ad).distance_example = some (k, ad) := by
  have hleg : validate_leg (convert_value_to_float e.til_skole) am ad false =
      ⟨true, false, true, some (k, ad)⟩ := by
    rw [h1]
    subst h3
    simp [validate_leg, not_le.2 h2, not_le.2 h4, not_le.2 h5]
  rcases validate_leg_dv_true (convert_value_to_float e.til_hjem) ae ad with ⟨hex, hdv⟩
  simp [validate_entries, validate_entries_step, hleg, exUpdate, hex, hdv]

unseal Rat.mul Rat.add Rat.sub Rat.inv Rat.ofScientific in
/-- C2 counterexample: in a claim whose two entries both exceed the cap
(10 km then 12 km against 5 km approved), the first entry alone stores
the example pair (10, 5), but processing the whole claim leaves the
pair (12, 5): the later violating entry replaced the first recorded
example, refuting that the stored pair remains the first one. -/
theorem distance_example_not_first_counterexample :
    runEntries cC2 [bevC2] initState [e1C2] =
      LoopResult.state ⟨1, 223 / 20, true, false, false, false, true, some (10, 5), false⟩ ∧
    cC2.entries = [e1C2, e2C2] ∧
    runEntries cC2 [bevC2] initState [e1C2, e2C2] =
      LoopResult.state ⟨2, 223 / 10, true, false, false, false, true, some (12, 5), false⟩ ∧
    some ((12 : ℚ), (5 : ℚ)) ≠ some ((10 : ℚ), (5 : ℚ)) := by decide

/-- C2 amended: the distance-violation flag itself is sticky: once set
in the claim state it is never cleared by the remaining entries; within
one entry, a second leg that also exceeds its cap after a violation
records no new example; but the stored example pair is only sticky
within an entry: each later entry containing a violating leg overwrites
the stored pair with that entry's own first (reported, allowed) pair. -/
theorem sticky_flag_amended :
    (∀ (c : ClaimData) (bevillinger : List Bevilling) (es : List Entry)
        (st st' : ClaimState),
      st.distance_violation = true →
      runEntries c bevillinger st es = LoopResult.state st' →
      st'.distance_violation = true) ∧
    (∀ (e : Entry) (am ae : Bool) (ad k : ℚ),
      convert_value_to_float e.til_skole = some k → 0 < k → am = true →
      0 < ad → ad < k →
      (validate_entries [e] am ae ad).distance_violation = true ∧
      (validate_entries [e] am ae ad).distance_example = some (k, ad)) ∧
    (∀ (st : ClaimState) (val : EntryValidation) (b : Bevilling) (d : Date),
      val.distance_violation = true →
      (accumulate st val b d).distance_example = val.distance_example) :=
  ⟨fun c bevillinger es st st' hdv h => runEntries_dv_sticky c bevillinger es st st' hdv h,
   fun e am ae ad k h1 h2 h3 h4 h5 =>
     validate_entries_single_violation e am ae ad k h1 h2 h3 h4 h5,
   fun st val b d h => accumulate_example_overwrite st val b d h⟩

unseal Rat.mul Rat.add Rat.sub Rat.inv Rat.ofScientific in
/-- Witness for C2 at concrete inputs: an already-set flag survives a
further entry, a 10 km morning leg against a 5 km cap records its pair
and the afternoon leg does not overwrite it, and a violating entry
validation overwrites a previously stored pair. -/
theorem sticky_flag_amended_witness :
    (ClaimState.mk 1 (223 / 20) true false false false true (some (10, 5)) false).distance_violation = true ∧
    ((validate_entries [e1C2] true false 5).distance_violation = true ∧
      (validate_entries [e1C2] true false 5).distance_example = some (10, 5)) ∧
    (accumulate (ClaimState.mk 0 0 false false false false true (some (1, 2)) false)
      (EntryValidation.mk false false true (some (10, 5)) 1) bevC2
      ⟨2025, 3, 3⟩).distance_example = some (10, 5) :=
  ⟨sticky_flag_amended.1 cC2 [bevC2] [e1C2]
      (ClaimState.mk 0 0 false false false false true (some (1, 2)) false)
      (ClaimState.mk 1 (223 / 20) true false false false true (some (10, 5)) false)
      rfl (by decide),
   sticky_flag_amended.2.1 e1C2 true false 5 10 (by decide) (by decide) rfl
     (by decide) (by decide),
   sticky_flag_amended.2.2
     (ClaimState.mk 0 0 false false false false true (some (1, 2)) false)
     (EntryValidation.mk false false true (some (10, 5)) 1) bevC2 ⟨2025, 3, 3⟩ rfl⟩

lemma runEntries_append (c : ClaimData) (bevillinger : List Bevilling) :
    ∀ (pre suf : List Entry) (st st1 : ClaimState),
      runEntries c bevillinger st pre = LoopResult.state st1 →
      st1.overlapping = false →
      runEntries c bevillinger st (pre ++ suf) = runEntries c bevillinger st1 suf := by
  intro pre
  induction pre with
  | nil =>
      intro suf st st1 h _
      rw [runEntries] at h
      cases h
      rfl
  | cons e rest ih =>
      intro suf st st1 h hov
      rw [runEntries] at h
      rw [List.cons_append, runEntries]
      rcases hm : find_bevillinger_for_date bevillinger e.dato with _ | ⟨b, _ | ⟨b2, bs⟩⟩
      · simp only [hm] at h ⊢
        exact ih suf _ st1 h hov
      · simp only [hm] at h ⊢
        rcases hic : identityCheck c b with _ | msg <;> simp only [hic] at h ⊢
        · exact ih suf _ st1 h hov
        · cases h
      · simp only [hm] at h ⊢
        cases h
        simp at hov

/-- C3 counterexample: a claim whose first entry matches exactly one
bevilling but fails the school identity check is rejected with the
school-mismatch comment, even though its second entry's date is
covered by two overlapping bevillinger: the overlapping-grants verdict
does not materialize because the earlier hard rejection returns first. -/
theorem overlapping_preempted_counterexample :
    reconcile cC3 [bevC3a, bevC3b] = ⟨false, Value.vStr "", skoleMismatchMsg⟩ ∧
    (find_bevillinger_for_date [bevC3a, bevC3b] ⟨2025, 1, 7⟩).length = 2 ∧
    cC3.entries.map Entry.dato = [⟨2025, 1, 2⟩, ⟨2025, 1, 7⟩] ∧
    skoleMismatchMsg ≠ overlappingMsg := by decide

/-- C3 amended: when the entries scanned in order reach an entry whose
date is contained in two or more of the person's grants before any
hard rejection fires (every earlier entry matched no grant or passed
all identity checks), processing stops at that entry — the remaining
entries are never examined — and the claim's verdict is the rejection
with the overlapping-grants reason and an empty adjusted amount, even
if other entries of the claim would individually validate. -/
theorem overlapping_grants_short_circuit (c : ClaimData)
    (bevillinger : List Bevilling) (pre suf : List Entry) (e : Entry)
    (st : ClaimState)
    (hsplit : c.entries = pre ++ e :: suf)
    (hpre : runEntries c bevillinger initState pre = LoopResult.state st)
    (hov : st.overlapping = false)
    (hm : 2 ≤ (find_bevillinger_for_date bevillinger e.dato).length) :
    runEntries c bevillinger initState c.entries =
      LoopResult.state { st with overlapping := true } ∧
    reconcile c bevillinger = ⟨false, Value.vStr "", overlappingMsg⟩ := by
  have hrun : runEntries c bevillinger initState c.entries =
      LoopResult.state { st with overlapping := true } := by
    rw [hsplit]
    rw [runEntries_append c bevillinger pre (e :: suf) initState st hpre hov]
    rw [runEntries]
    rcases hfind : find_bevillinger_for_date bevillinger e.dato with _ | ⟨b1, _ | ⟨b2, bs⟩⟩
    · rw [hfind] at hm; simp at hm
    · rw [hfind] at hm; simp at hm
    · simp only [hfind]
  refine ⟨hrun, ?_⟩
  simp [reconcile, hrun, pyJoin]

/-- Witness for C3: a claim whose first entry immediately falls in the
overlap of two bevillinger. -/
theorem overlapping_grants_short_circuit_witness :
    runEntries cC3w [bevC3a, bevC3b] initState cC3w.entries =
      LoopResult.state { initState with overlapping := true } ∧
    reconcile cC3w [bevC3a, bevC3b] = ⟨false, Value.vStr "", overlappingMsg⟩ :=
  overlapping_grants_short_circuit cC3w [bevC3a, bevC3b] []
    [⟨⟨2025, 1, 8⟩, Value.vNum 3, Value.vNone⟩]
    ⟨⟨2025, 1, 7⟩, Value.vNum 3, Value.vNone⟩
    initState rfl rfl rfl (by decide)

unseal Rat.mul Rat.add Rat.sub Rat.inv Rat.ofScientific in
/-- C4 counterexample: a claim whose single entry matches one bevilling
and passes the identity checks but reports only a disallowed afternoon
leg accumulates zero valid legs and suffers no hard rejection, yet its
rejection comment is the wrong-afternoon message, not the
outside-active-coverage message. -/
theorem zero_valid_legs_reason_counterexample :
    runEntries cC4 [bevC2] initState cC4.entries =
      LoopResult.state ⟨0, 0, true, false, false, true, false, none, false⟩ ∧
    reconcile cC4 [bevC2] = ⟨false, Value.vStr "", wrongEfterMsg⟩ ∧
    wrongEfterMsg ≠ outsideMsg := by decide

/-- C4 amended: when no hard rejection occurred, the verdict carries
the outside-active-coverage message exactly when no entry matched an
active bevilling; a claim some of whose entries matched but which
accumulated zero valid legs is still rejected with an empty adjusted
amount, but its comment is the accumulated soft-issue list rather than
the outside-coverage message. -/
theorem outside_coverage_and_zero_legs (c : ClaimData)
    (bevillinger : List Bevilling) (st : ClaimState)
    (h : runEntries c bevillinger initState c.entries = LoopResult.state st)
    (hov : st.overlapping = false) :
    (st.found_any = false →
      reconcile c bevillinger = ⟨false, Value.vStr "", outsideMsg⟩) ∧
    (st.found_any = true → st.total_valid_legs = 0 →
      (reconcile c bevillinger).submission_valid = false ∧
      (reconcile c bevillinger).aendret_beloeb = Value.vStr "" ∧
      (reconcile c bevillinger).kommentar = pyJoin msep (claimComments st)) := by
  constructor
  · intro hfa
    simp [reconcile, h, hov, hfa, pyJoin]
  · intro hfa hzero
    simp [reconcile, h, hov, hfa, hzero]

/-- Witness for C4: a one-entry claim outside all coverage is rejected
with the outside message, and the zero-valid-legs claim of the
counterexample input is rejected with empty amount. -/
theorem outside_coverage_and_zero_legs_witness :
    reconcile cC4w [bevC2] = ⟨false, Value.vStr "", outsideMsg⟩ ∧
    ((reconcile cC4 [bevC2]).submission_valid = false ∧
      (reconcile cC4 [bevC2]).aendret_beloeb = Value.vStr "" ∧
      (reconcile cC4 [bevC2]).kommentar =
        pyJoin msep (claimComments ⟨0, 0, true, false, false, true, false, none, false⟩)) :=
  ⟨(outside_coverage_and_zero_legs cC4w [bevC2]
      ⟨0, 0, false, false, false, false, false, none, true⟩ (by decide) rfl).1 rfl,
   (outside_coverage_and_zero_legs cC4 [bevC2]
      ⟨0, 0, true, false, false, true, false, none, false⟩ (by decide) rfl).2 rfl rfl⟩

lemma validate_leg_is_valid (km : Option ℚ) (allowed : Bool) (ad : ℚ)
    (dv : Bool) :
    (validate_leg km allowed ad dv).is_valid = legValid km allowed := by
  cases km with
  | none => rfl
  | some k =>
      simp only [validate_leg, legValid]
      split_ifs <;> simp_all

lemma validate_entries_single_legs (e : Entry) (am ae : Bool) (ad : ℚ) :
    (validate_entries [e] am ae ad).valid_legs =
      (if legValid (convert_value_to_float e.til_skole) am then 1 else 0) +
      (if legValid (convert_value_to_float e.til_hjem) ae then 1 else 0) := by
  simp only [validate_entries, List.foldl, validate_entries_step]
  rw [validate_leg_is_valid, validate_leg_is_valid]
  simp

lemma accumulate_beloeb (st : ClaimState) (val : EntryValidation)
    (b : Bevilling) (d : Date) :
    (accumulate st val b d).total_beloeb =
      st.total_beloeb +
        (val.valid_legs : ℚ) * b.allowed_distance * get_takst_for_date d := by
  simp only [accumulate]
  split_ifs <;> simp_all

lemma legs_mul_eq (b : Bevilling) (e : Entry) :
    ((validate_entries [e] b.allowed_morgen b.allowed_efter
        b.allowed_distance).valid_legs : ℚ) *
      b.allowed_distance * get_takst_for_date e.dato = legsSubtotal b e := by
  rw [validate_entries_single_legs]
  cases hb1 : legValid (convert_value_to_float e.til_skole) b.allowed_morgen <;>
    cases hb2 : legValid (convert_value_to_float e.til_hjem) b.allowed_efter <;>
    simp [legsSubtotal, hb1, hb2] <;> push_cast <;> ring

lemma runEntries_beloeb (c : ClaimData) (bevillinger : List Bevilling) :
    ∀ (es : List Entry) (st st' : ClaimState),
      runEntries c bevillinger st es = LoopResult.state st' →
      st'.overlapping = false →
      st'.total_beloeb = st.total_beloeb + claimSubtotal bevillinger es := by
  intro es
  induction es with
  | nil =>
      intro st st' h _
      rw [runEntries] at h
      cases h
      simp [claimSubtotal]
  | cons e rest ih =>
      intro st st' h hov
      rw [runEntries] at h
      have hsum : claimSubtotal bevillinger (e :: rest) =
          entrySubtotal bevillinger e + claimSubtotal bevillinger rest := by
        simp [claimSubtotal]
      rcases hm : find_bevillinger_for_date bevillinger e.dato with _ | ⟨b, _ | ⟨b2, bs⟩⟩ <;>
        simp only [hm] at h
      · have hrec := ih _ st' h hov
        rw [hsum, hrec]
        simp [entrySubtotal, hm]
      · rcases hic : identityCheck c b with _ | msg <;> simp only [hic] at h
        · have hrec := ih _ st' h hov
          rw [hsum, hrec, accumulate_beloeb, legs_mul_eq]
          simp only [entrySubtotal, hm]
          ring_nf
        · cases h
      · cases h
        simp at hov

/-- C5: for every claim that ends approved with at least one soft
issue and no hard rejection, the adjusted amount equals the sum over
all valid legs of the matched bevilling's approved distance (not the
reported distance) times the rate for the entry's date, rounded to two
decimals only at the point of final output; an approved claim with no
soft issues gets no adjusted amount. -/
theorem adjusted_amount_spec (c : ClaimData) (bevillinger : List Bevilling)
    (st : ClaimState)
    (h : runEntries c bevillinger initState c.entries = LoopResult.state st)
    (hov : st.overlapping = false) (hfa : st.found_any = true) :
    (0 < st.total_valid_legs → claimComments st ≠ [] →
      (reconcile c bevillinger).aendret_beloeb =
        Value.vNum (round2 (claimSubtotal bevillinger c.entries))) ∧
    (claimComments st = [] →
      (reconcile c bevillinger).aendret_beloeb = Value.vStr "") := by
  have htot : st.total_beloeb = claimSubtotal bevillinger c.entries := by
    have h2 := runEntries_beloeb c bevillinger c.entries initState st h hov
    simpa [initState] using h2
  constructor
  · intro hpos hcom
    simp [reconcile, h, hov, hfa, hpos, hcom, htot]
  · intro hcom
    simp [reconcile, h, hov, hfa, hcom]

unseal Rat.mul Rat.add Rat.sub Rat.inv Rat.ofScientific in
/-- Witness for C5: a claim with one valid in-cap morning leg and a
wrong-afternoon soft issue is paid the approved distance times the
rate, rounded. -/
theorem adjusted_amount_spec_witness :
    (reconcile cC5 [bevC2]).aendret_beloeb =
      Value.vNum (round2 (claimSubtotal [bevC2] cC5.entries)) :=
  (adjusted_amount_spec cC5 [bevC2]
      ⟨1, 223 / 20, true, false, false, true, false, none, false⟩
      (by decide) rfl rfl).1 (by decide) (by decide)

end Egenbefordring
